import Mathlib

/-!
Shallow embedding of the OAuth handler layer (`api/v1`) and the user model
layer (`model`) of the sast-link-backend repository.

External effects (the OAuth library manager, the relational store, the Redis
key-value store, session storage) are passed in explicitly, either as oracle
functions or as explicit state that the embedded handlers thread through.
A Go `panic` (for instance a nil-pointer dereference) is modelled by an
`Option`-typed result being `none`.
-/

namespace SastLink

/-- Failure codes from the `result` package that the handlers in scope use. -/
inductive ResultCode where
  | paramError
  | internalErr
  | accessTokenErr
  | getUserinfoFail
  | authError
  | refreshTokenErr
  | clientErr
  deriving DecidableEq, Repr

/-- A JSON response envelope written by a handler: either a failure envelope
carrying a `ResultCode`, or a success envelope carrying its data fields.
The `Nat` is the HTTP status code. Data values are `Option String` because
the Go code puts `*string` fields into the success payload. -/
inductive Resp where
  | failed (status : Nat) (code : ResultCode)
  | success (status : Nat) (data : List (String × Option String))
  deriving DecidableEq, Repr

/-- Go `url.Values`: a map from keys to lists of values, as an assoc list. -/
abbrev Form := List (String × List String)

/-- `url.Values.Get`: first value for the key, or `""` when absent. -/
def Form.get (f : Form) (k : String) : String :=
  match f.lookup k with
  | some (v :: _) => v
  | _ => ""

/-- `url.Values.Add`: append a value to the key's slice. -/
def Form.add : Form → String → String → Form
  | [], k, v => [(k, [v])]
  | (k₀, vs) :: rest, k, v =>
    if k₀ = k then (k₀, vs ++ [v]) :: rest
    else (k₀, vs) :: Form.add rest k v

/-- The session store as used by these handlers: the only key ever stored is
`"ReturnUri"` (holding a `url.Values`); `saved` records whether `Save` has
been called on the handler's session instance. -/
structure Session where
  returnUri : Option Form
  saved : Bool
  deriving DecidableEq, Repr

/-- The `model.User` record (gorm row). Pointer-typed Go fields are
`Option String`; `createdAt` stands in for the `time.Time` field. -/
structure User where
  id : Nat
  uid : Option String
  email : Option String
  password : Option String
  qqId : Option String
  larkId : Option String
  githubId : Option String
  wechatId : Option String
  createdAt : Nat
  isDeleted : Bool
  deriving DecidableEq, Repr

/-- The zero value of `model.User`, which a failed gorm `First` leaves behind. -/
def zeroUser : User :=
  ⟨0, none, none, none, none, none, none, none, 0, false⟩

/-- A gorm database error: `gorm.ErrRecordNotFound` or anything else. -/
inductive DbErr where
  | recordNotFound
  | other (msg : String)
  deriving DecidableEq, Repr

/-- The part of the OAuth library's token record these handlers read. -/
structure TokenInfo where
  clientID : String
  userID : String
  scope : String
  deriving DecidableEq, Repr

/-- An `oauth2.models.Client` record as held by the client store. -/
structure ClientRecord where
  id : String
  secret : String
  domain : String
  deriving DecidableEq, Repr

/-- The Redis key-value store: key, value and the TTL the value was set with
(in nanoseconds, matching Go `time.Duration`). -/
abbrev KV := List (String × String × Nat)

/-- Go `time.Minute` in nanoseconds. -/
def timeMinute : Nat := 60000000000

/-- Redis `SET`: overwrite the key's entry, or add one. -/
def KV.set : KV → String → String → Nat → KV
  | [], k, v, t => [(k, v, t)]
  | (k₀, v₀, t₀) :: rest, k, v, t =>
    if k₀ = k then (k, v, t) :: rest
    else (k₀, v₀, t₀) :: KV.set rest k v t

/-- Go `strings.HasPrefix(s, pre)`, over the characters of the strings. -/
def strHasPrefixOf (pre s : String) : Bool :=
  pre.data.isPrefixOf s.data

/-- Split a character list at every occurrence of `c` (no collapsing),
matching Go `strings.Split` semantics. -/
def splitOnChar (c : Char) : List Char → List (List Char)
  | [] => [[]]
  | x :: xs =>
    let rest := splitOnChar c xs
    if x = c then [] :: rest
    else
      match rest with
      | r :: rs => (x :: r) :: rs
      | [] => [[x]]

/-- Go `strings.Split(s, " ")`. -/
def strSplitSpace (s : String) : List String :=
  (splitOnChar ' ' s.data).map (fun l => ⟨l⟩)

/-! ## Handlers from `api/v1` -/

/-- `CreateClient`: reads `redirect_uri` from the form; generates a UUID and
a 32-byte random secret (passed in as oracle results, `secretGen = none`
meaning `GenerateRandomString` returned an error), then stores the client.
`storeCreateOk = false` means `clientStore.Create` returned an error.
Returns the response written and the resulting client-store state. -/
def CreateClient (redirectURI uuid : String) (secretGen : Option String)
    (storeCreateOk : Bool) (store : List ClientRecord) :
    Resp × List ClientRecord :=
  if redirectURI = "" then (.failed 400 .paramError, store)
  else
    match secretGen with
    | none => (.failed 500 .internalErr, store)
    | some secret =>
      if storeCreateOk then
        (.success 200 [("client_id", some uuid), ("client_secret", some secret)],
          store ++ [⟨uuid, secret, redirectURI⟩])
      else (.failed 400 .internalErr, store)

/-- `AccessToken`: delegates to `srv.HandleTokenRequest` (whose returned
error is `handleErr`); writes a 500 internal-error envelope only when that
error is non-nil. `none` means the handler wrote no envelope of its own. -/
def AccessToken (handleErr : Option String) : Option Resp :=
  match handleErr with
  | some _ => some (.failed 500 .internalErr)
  | none => none

/-- `RefreshToken`: delegates to `srv.HandleTokenRequest` (whose returned
error is `handleErr`); the source tests `err == nil` and writes the 500
internal-error envelope in that branch, returning silently otherwise. -/
def RefreshToken (handleErr : Option String) : Option Resp :=
  if handleErr = none then some (.failed 500 .internalErr)
  else none

/-- Outcome of `OauthUserInfo`: the response written (`none` in `resp`
means the handler panicked before writing one), and whether the access-token
load and the user lookup were reached. -/
structure UserInfoOutcome where
  resp : Option Resp
  tokenLoaded : Bool
  userLookedUp : Bool
  deriving DecidableEq, Repr

/-- `OauthUserInfo`: reads the `Authorization` header; on a missing or
non-`Bearer` header writes an access-token-error envelope. Otherwise takes
`strings.Split(header, " ")[1]` as the access token, loads it through the
manager (`loadAccessToken`), then resolves the user through
`service.OauthUserInfo` (`lookupUser`, returning the Go pair
`(*model.User, error)`). The error-log branch reads `user.Uid` and the
success branch reads `user.Email` and `user.Uid`, so a nil `user` pointer
there is a panic (`resp = none`). All envelopes are written with HTTP 200. -/
def OauthUserInfo (authHeader : String)
    (loadAccessToken : String → Except String TokenInfo)
    (lookupUser : String → Option User × Option String) : UserInfoOutcome :=
  if authHeader = "" || !(strHasPrefixOf "Bearer " authHeader) then
    ⟨some (.failed 200 .accessTokenErr), false, false⟩
  else
    -- the "Bearer " prefix guarantees index 1 of the split exists
    let accessToken := ((strSplitSpace authHeader)[1]?).getD ""
    match loadAccessToken accessToken with
    | .error _ => ⟨some (.failed 200 .accessTokenErr), true, false⟩
    | .ok ti =>
      match lookupUser ti.userID with
      | (user, some _) =>
        match user with
        | none => ⟨none, true, true⟩
        | some _ => ⟨some (.failed 200 .getUserinfoFail), true, true⟩
      | (none, none) => ⟨none, true, true⟩
      | (some u, none) =>
        ⟨some (.success 200 [("email", u.email), ("user_id", u.uid)]), true, true⟩

/-- Outcome of `Authorize`: the envelope the handler itself wrote (if any),
the form handed to `srv.HandleAuthorizeRequest` wrapped in an outer `some`
when that call was reached (the inner `Option Form` is `none` when
`r.Form` was left as the nil `url.Values`), and the final session state. -/
structure AuthorizeOutcome where
  resp : Option Resp
  delegatedForm : Option (Option Form)
  session : Option Session
  deriving DecidableEq, Repr

/-- `Authorize`: starts the session (`startRes`); on failure writes a 500
internal-error envelope. Otherwise, when the session holds `"ReturnUri"`,
replaces `r.Form` with that stored form plus the inbound request's `token`
value, and with the nil form otherwise; then deletes `"ReturnUri"`, saves
the session, and delegates to `srv.HandleAuthorizeRequest`
(`handleAuthorize`, whose returned error triggers a 500 envelope). -/
def Authorize (startRes : Except String Session) (reqForm : Form)
    (handleAuthorize : Option Form → Option String) : AuthorizeOutcome :=
  match startRes with
  | .error _ => ⟨some (.failed 500 .internalErr), none, none⟩
  | .ok store =>
    let form : Option Form :=
      match store.returnUri with
      | some v => some (Form.add v "token" (reqForm.get "token"))
      | none => none
    let store' : Session := ⟨none, true⟩
    match handleAuthorize form with
    | some _ => ⟨some (.failed 500 .internalErr), some form, some store'⟩
    | none => ⟨none, some form, some store'⟩

/-- `clientInfoHandler`: for a `refresh_token` grant, loads the refresh
token record (`loadRefreshToken`), takes its client id, loads that client
(`getClient`) and takes its stored secret, failing with the source's
result-code errors when a load fails or an id/secret is empty. For other
grants, reads `client_id`/`client_secret` from the form. `Except` errors
stand for the non-nil Go `error` returns. -/
def clientInfoHandler (form : Form)
    (loadRefreshToken : String → Except String TokenInfo)
    (getClient : String → Except String ClientRecord) :
    Except ResultCode (String × String) :=
  if form.get "grant_type" = "refresh_token" then
    match loadRefreshToken (form.get "refresh_token") with
    | .error _ => .error .refreshTokenErr
    | .ok ti =>
      let clientID := ti.clientID
      if clientID = "" then .error .clientErr
      else
        match getClient clientID with
        | .error _ => .error .clientErr
        | .ok cli =>
          let clientSecret := cli.secret
          if clientSecret = "" then .error .clientErr
          else .ok (clientID, clientSecret)
  else
    let clientID := form.get "client_id"
    if clientID = "" then .error .clientErr
    else
      let clientSecret := form.get "client_secret"
      if clientSecret = "" then .error .clientErr
      else .ok (clientID, clientSecret)

/-- Outcome of `userAuthorizeHandler`: the `(userID, err)` pair the callback
returns to the library, the JSON envelope it wrote directly to the response
writer (if any), and the final session state (`none` when `session.Start`
failed and no session exists). -/
structure AuthOutcome where
  userID : String
  err : Option String
  wrote : Option Resp
  session : Option Session
  deriving DecidableEq, Repr

/-- `userAuthorizeHandler`: starts the session, reads `token` from the
request form, resolves a username from it (`getUsername`, embedding
`util.GetUsername`), and fetches the server-side login token from Redis
(`rdbGet username`, embedding `model.Rdb.Get(ctx, model.LoginTokenKey(username))`).
Each of the four failure branches stores the request form under
`"ReturnUri"`, saves the session, and writes an AUTH_ERROR envelope
(written with the default 200 status), leaving the returned `userID`
at its zero value `""`. -/
def userAuthorizeHandler (startRes : Except String Session) (form : Form)
    (getUsername : String → Except String String)
    (rdbGet : String → Except String String) : AuthOutcome :=
  match startRes with
  | .error e => ⟨"", some e, none, none⟩
  | .ok _sess =>
    let token := form.get "token"
    if token = "" then
      ⟨"", none, some (.failed 200 .authError), some ⟨some form, true⟩⟩
    else
      match getUsername token with
      | .error e =>
        ⟨"", some e, some (.failed 200 .authError), some ⟨some form, true⟩⟩
      | .ok username =>
        if username = "" then
          ⟨"", none, some (.failed 200 .authError), some ⟨some form, true⟩⟩
        else
          match rdbGet username with
          | .error e =>
            ⟨"", some e, some (.failed 200 .authError), some ⟨some form, true⟩⟩
          | .ok rToken =>
            if rToken ≠ token then
              ⟨"", none, some (.failed 200 .authError), some ⟨some form, true⟩⟩
            else
              ⟨username, none, none, some _sess⟩

/-- The disjunction of `userAuthorizeHandler`'s four authentication checks,
as a boolean over the same inputs: missing form token, username resolution
error or empty username, login-token record lookup error, or stored-token
mismatch. -/
def authCheckFails (form : Form) (getUsername : String → Except String String)
    (rdbGet : String → Except String String) : Bool :=
  let token := form.get "token"
  if token = "" then true
  else
    match getUsername token with
    | .error _ => true
    | .ok username =>
      if username = "" then true
      else
        match rdbGet username with
        | .error _ => true
        | .ok rToken => rToken ≠ token

/-! ## Model layer (`model/user.go`) -/

/-- `model.CheckPassword`: decides between an email lookup and a uid lookup
by whether `regexp.MatchString("@", username)` matches (the constant pattern
`"@"` compiles without error, so the `err2` branch is dead and the match is
`username.contains '@'`). The gorm lookup is the oracle
`lookup byEmail username`; on any lookup error the record keeps its zero
value. The source then dereferences `*user.Password` unconditionally, which
on the zero-valued record is a nil-pointer dereference: result `none`. -/
def CheckPassword (lookup : Bool → String → Except DbErr User)
    (username password : String) : Option (Bool × Option DbErr) :=
  let matched := username.data.contains '@'
  let res := lookup matched username
  let user : User :=
    match res with
    | .ok u => u
    | .error _ => zeroUser
  let err : Option DbErr :=
    match res with
    | .ok _ => none
    | .error e => some e
  let exist : Bool :=
    match res with
    | .error .recordNotFound => false
    | _ => true
  match user.password with
  | none => none
  | some p => some ((if p ≠ password then false else exist), err)

/-- `model.VerifyAccount`: looks the user up by email (`lookupByEmail`).
On `gorm.ErrRecordNotFound` it generates a ticket
(`genToken = util.GenerateToken(username)`, whose error component the
source overwrites and ignores), stores it in Redis under
`"TICKET:" ++ username` with a five-minute expiry, and returns
`(false, ticket, nil)`. On success it returns `(true, "", nil)`; on any
other lookup error `(true, "", err)`. The final component is the resulting
key-value store state. -/
def VerifyAccount (lookupByEmail : Except DbErr User)
    (genToken : String × Option String) (username : String) (kv : KV) :
    (Bool × String × Option DbErr) × KV :=
  match lookupByEmail with
  | .ok _ => ((true, "", none), kv)
  | .error .recordNotFound =>
    let ticket := genToken.1
    ((false, ticket, none), kv.set ("TICKET:" ++ username) ticket (5 * timeMinute))
  | .error e => ((true, "", some e), kv)

/-! ## Theorems -/

/-- Claim C1: for every token-refresh request, when `HandleTokenRequest`
succeeds (nil error) the `RefreshToken` handler still writes the HTTP 500
internal-error envelope, and when it returns a non-nil error no envelope is
written by `RefreshToken`. -/
theorem C1_refreshToken_inverted_error_reporting (e : String) :
    RefreshToken none = some (.failed 500 .internalErr) ∧
    RefreshToken (some e) = none :=
  ⟨rfl, rfl⟩

/-- Claim C1 witness at a concrete handler error. -/
theorem C1_refreshToken_inverted_error_reporting_witness :
    RefreshToken none = some (.failed 500 .internalErr) ∧
    RefreshToken (some "boom") = none :=
  C1_refreshToken_inverted_error_reporting "boom"

/-- Claim C2: whenever `userAuthorizeHandler` fails one of its four
authentication checks (and the session started), it stores the request form
under `"ReturnUri"`, saves the session, writes an AUTH_ERROR failure
envelope, and returns an empty user id. -/
theorem C2_userAuthorize_failure_persists_form (sess : Session) (form : Form)
    (gU rG : String → Except String String)
    (h : authCheckFails form gU rG = true) :
    (userAuthorizeHandler (.ok sess) form gU rG).userID = "" ∧
    (userAuthorizeHandler (.ok sess) form gU rG).wrote =
      some (.failed 200 .authError) ∧
    (userAuthorizeHandler (.ok sess) form gU rG).session =
      some ⟨some form, true⟩ := by
  unfold authCheckFails at h
  unfold userAuthorizeHandler
  by_cases h1 : form.get "token" = ""
  · simp [h1]
  · simp only [h1, if_false, ite_false] at h ⊢
    cases hg : gU (form.get "token") with
    | error e => simp [hg]
    | ok username =>
      rw [hg] at h
      by_cases h2 : username = ""
      · simp [hg, h2]
      · simp only [h2, if_false, ite_false] at h ⊢
        cases hr : rG username with
        | error e => simp [hg, h2, hr]
        | ok rToken =>
          rw [hr] at h
          have h3 : rToken ≠ form.get "token" := by simpa using h
          simp [hg, h2, hr, h3]

/-- Claim C2 witness: empty form (missing token) with concrete oracles. -/
theorem C2_userAuthorize_failure_persists_form_witness :
    (userAuthorizeHandler (.ok ⟨none, false⟩) []
      (fun _ => .error "x") (fun _ => .error "y")).userID = "" ∧
    (userAuthorizeHandler (.ok ⟨none, false⟩) []
      (fun _ => .error "x") (fun _ => .error "y")).wrote =
      some (.failed 200 .authError) ∧
    (userAuthorizeHandler (.ok ⟨none, false⟩) []
      (fun _ => .error "x") (fun _ => .error "y")).session =
      some ⟨some [], true⟩ :=
  C2_userAuthorize_failure_persists_form ⟨none, false⟩ []
    (fun _ => .error "x") (fun _ => .error "y") (by decide)

/-- Claim C3: for a `refresh_token` grant, `clientInfoHandler` returns a
non-nil error when the refresh-token load fails, when the resolved client
id is empty, when the client load fails, or when the stored secret is
empty; otherwise it returns the resolved client id and stored secret with a
nil error. (The Lean embedding is a total function, so no input panics.) -/
theorem C3_clientInfo_refresh_grant (form : Form)
    (lRT : String → Except String TokenInfo)
    (gC : String → Except String ClientRecord)
    (hg : form.get "grant_type" = "refresh_token") :
    (∀ e, lRT (form.get "refresh_token") = .error e →
      clientInfoHandler form lRT gC = .error .refreshTokenErr) ∧
    (∀ ti, lRT (form.get "refresh_token") = .ok ti → ti.clientID = "" →
      clientInfoHandler form lRT gC = .error .clientErr) ∧
    (∀ ti e, lRT (form.get "refresh_token") = .ok ti → ti.clientID ≠ "" →
      gC ti.clientID = .error e →
      clientInfoHandler form lRT gC = .error .clientErr) ∧
    (∀ ti cli, lRT (form.get "refresh_token") = .ok ti → ti.clientID ≠ "" →
      gC ti.clientID = .ok cli → cli.secret = "" →
      clientInfoHandler form lRT gC = .error .clientErr) ∧
    (∀ ti cli, lRT (form.get "refresh_token") = .ok ti → ti.clientID ≠ "" →
      gC ti.clientID = .ok cli → cli.secret ≠ "" →
      clientInfoHandler form lRT gC = .ok (ti.clientID, cli.secret)) := by
  refine ⟨?_, ?_, ?_, ?_, ?_⟩
  · intro e he
    simp [clientInfoHandler, hg, he]
  · intro ti hti hid
    simp [clientInfoHandler, hg, hti, hid]
  · intro ti e hti hid hge
    simp [clientInfoHandler, hg, hti, hid, hge]
  · intro ti cli hti hid hcli hsec
    simp [clientInfoHandler, hg, hti, hid, hcli, hsec]
  · intro ti cli hti hid hcli hsec
    simp [clientInfoHandler, hg, hti, hid, hcli, hsec]

/-- Claim C3 witness: a failing refresh-token load. -/
theorem C3_clientInfo_refresh_grant_witness :
    clientInfoHandler [("grant_type", ["refresh_token"])]
      (fun _ => .error "token not found") (fun _ => .error "no client") =
      .error .refreshTokenErr :=
  (C3_clientInfo_refresh_grant [("grant_type", ["refresh_token"])]
    (fun _ => .error "token not found") (fun _ => .error "no client")
    (by decide)).1 "token not found" rfl

/-- Claim C4: `CreateClient` with an empty `redirect_uri` responds with
HTTP 400 and a parameter-error envelope, and the client store is
unchanged. -/
theorem C4_createClient_empty_redirect (uuid : String)
    (secretGen : Option String) (storeCreateOk : Bool)
    (store : List ClientRecord) :
    CreateClient "" uuid secretGen storeCreateOk store =
      (.failed 400 .paramError, store) :=
  rfl

/-- Claim C4 witness at concrete inputs. -/
theorem C4_createClient_empty_redirect_witness :
    CreateClient "" "uuid-1" (some "secret-1") true [] =
      (.failed 400 .paramError, []) :=
  C4_createClient_empty_redirect "uuid-1" (some "secret-1") true []

/-- Claim C5: `OauthUserInfo` with an empty `Authorization` header, or one
not starting with `"Bearer "`, writes an access-token-error envelope and
performs neither the access-token load nor the user lookup. -/
theorem C5_userinfo_malformed_header (authHeader : String)
    (loadTok : String → Except String TokenInfo)
    (lookupUser : String → Option User × Option String)
    (h : authHeader = "" ∨ strHasPrefixOf "Bearer " authHeader = false) :
    OauthUserInfo authHeader loadTok lookupUser =
      ⟨some (.failed 200 .accessTokenErr), false, false⟩ := by
  unfold OauthUserInfo
  rcases h with h | h <;> simp [h]

/-- Claim C5 witness: a non-Bearer header. -/
theorem C5_userinfo_malformed_header_witness :
    OauthUserInfo "Basic abc" (fun _ => .error "e")
      (fun _ => (none, none)) =
      ⟨some (.failed 200 .accessTokenErr), false, false⟩ :=
  C5_userinfo_malformed_header "Basic abc" (fun _ => .error "e")
    (fun _ => (none, none)) (Or.inr (by decide))

/-- Claim C6: given a well-formed bearer header whose token loads
successfully and whose user id resolves to an existing user,
`OauthUserInfo` responds with a success envelope containing exactly that
user's email (as `"email"`) and uid (as `"user_id"`). -/
theorem C6_userinfo_success_payload (authHeader : String)
    (loadTok : String → Except String TokenInfo)
    (lookupUser : String → Option User × Option String)
    (ti : TokenInfo) (u : User)
    (h1 : strHasPrefixOf "Bearer " authHeader = true)
    (h2 : loadTok (((strSplitSpace authHeader)[1]?).getD "") = .ok ti)
    (h3 : lookupUser ti.userID = (some u, none)) :
    OauthUserInfo authHeader loadTok lookupUser =
      ⟨some (.success 200 [("email", u.email), ("user_id", u.uid)]),
        true, true⟩ := by
  have hne : authHeader ≠ "" := by
    intro he
    rw [he] at h1
    exact absurd h1 (by decide)
  unfold OauthUserInfo
  simp [hne, h1, h2, h3]

/-- Claim C6 witness at a concrete request. -/
theorem C6_userinfo_success_payload_witness :
    OauthUserInfo "Bearer tok" (fun _ => .ok ⟨"c1", "u1", "all"⟩)
      (fun _ => (some ⟨1, some "uid1", some "mail@x", some "pw",
        none, none, none, none, 0, false⟩, none)) =
      ⟨some (.success 200 [("email", some "mail@x"),
        ("user_id", some "uid1")]), true, true⟩ :=
  C6_userinfo_success_payload "Bearer tok"
    (fun _ => .ok ⟨"c1", "u1", "all"⟩)
    (fun _ => (some ⟨1, some "uid1", some "mail@x", some "pw",
      none, none, none, none, 0, false⟩, none))
    ⟨"c1", "u1", "all"⟩
    ⟨1, some "uid1", some "mail@x", some "pw", none, none, none, none, 0, false⟩
    (by decide) rfl rfl

/-- Claim C7: when the session starts, `Authorize` deletes the
`"ReturnUri"` entry and saves the session (so afterwards the session holds
no `"ReturnUri"`), and when an entry was present the form handed to the
library is the stored form with the inbound request's token added. -/
theorem C7_authorize_replays_and_clears_returnUri (sess : Session)
    (reqForm : Form) (hA : Option Form → Option String) :
    (Authorize (.ok sess) reqForm hA).session = some ⟨none, true⟩ ∧
    (∀ f, sess.returnUri = some f →
      (Authorize (.ok sess) reqForm hA).delegatedForm =
        some (some (Form.add f "token" (reqForm.get "token")))) := by
  unfold Authorize
  constructor
  · cases hf : sess.returnUri <;>
      cases hr : hA (match sess.returnUri with
        | some v => some (Form.add v "token" (reqForm.get "token"))
        | none => none) <;>
      simp_all
  · intro f hf
    cases hr : hA (some (Form.add f "token" (reqForm.get "token"))) <;>
      simp_all

/-- Claim C7 witness at a concrete session and request. -/
theorem C7_authorize_replays_and_clears_returnUri_witness :
    (Authorize (.ok ⟨some [("a", ["b"])], false⟩) [("token", ["t"])]
      (fun _ => none)).session = some ⟨none, true⟩ ∧
    (Authorize (.ok ⟨some [("a", ["b"])], false⟩) [("token", ["t"])]
      (fun _ => none)).delegatedForm =
      some (some (Form.add [("a", ["b"])] "token"
        (Form.get [("token", ["t"])] "token"))) :=
  ⟨(C7_authorize_replays_and_clears_returnUri ⟨some [("a", ["b"])], false⟩
      [("token", ["t"])] (fun _ => none)).1,
    (C7_authorize_replays_and_clears_returnUri ⟨some [("a", ["b"])], false⟩
      [("token", ["t"])] (fun _ => none)).2 [("a", ["b"])] rfl⟩

/-- Looking up the key just set in the key-value store yields the set value
and TTL. -/
theorem KV.lookup_set (kv : KV) (k v : String) (t : Nat) :
    (KV.set kv k v t).lookup k = some (v, t) := by
  induction kv with
  | nil => simp [KV.set, List.lookup]
  | cons hd tl ih =>
    obtain ⟨k₀, v₀, t₀⟩ := hd
    by_cases hk : k₀ = k
    · simp [KV.set, hk, List.lookup]
    · have hne : (k == k₀) = false := beq_eq_false_iff_ne.mpr (Ne.symm hk)
      simp [KV.set, hk, List.lookup, hne, ih]

/-- Claim C8: when the email lookup reports record-not-found,
`VerifyAccount` stores the generated ticket under `"TICKET:" ++ username`
with a TTL of exactly five minutes and returns `(false, ticket, nil)`;
in particular the resulting store maps that key to the ticket with that
TTL. -/
theorem C8_verifyAccount_ticket (genToken : String × Option String)
    (username : String) (kv : KV) :
    VerifyAccount (.error .recordNotFound) genToken username kv =
      ((false, genToken.1, none),
        kv.set ("TICKET:" ++ username) genToken.1 (5 * timeMinute)) ∧
    ((VerifyAccount (.error .recordNotFound) genToken username kv).2).lookup
      ("TICKET:" ++ username) = some (genToken.1, 5 * timeMinute) := by
  refine ⟨rfl, ?_⟩
  show (kv.set ("TICKET:" ++ username) genToken.1 (5 * timeMinute)).lookup
    ("TICKET:" ++ username) = some (genToken.1, 5 * timeMinute)
  exact KV.lookup_set kv ("TICKET:" ++ username) genToken.1 (5 * timeMinute)

/-- Claim C8 witness at a concrete username and empty store. -/
theorem C8_verifyAccount_ticket_witness :
    VerifyAccount (.error .recordNotFound) ("tkt", none) "alice" [] =
      ((false, "tkt", none),
        KV.set [] "TICKET:alice" "tkt" (5 * timeMinute)) ∧
    ((VerifyAccount (.error .recordNotFound) ("tkt", none) "alice" []).2).lookup
      "TICKET:alice" = some ("tkt", 5 * timeMinute) :=
  C8_verifyAccount_ticket ("tkt", none) "alice" []

/-- Claim C9: `CheckPassword` is NOT total — when the lookup finds no
record (username with no matching user), the source dereferences the
zero-valued record's nil `Password` pointer; the embedding evaluates to
`none` (panic) at that input. -/
theorem C9_checkPassword_panics_on_missing_user :
    CheckPassword (fun _ _ => .error .recordNotFound) "nosuchuser" "pw" =
      none := by
  decide

/-- Claim C10: the user-lookup error branch of `OauthUserInfo` is NOT
total — when the lookup returns a nil user with a non-nil error, the
logging code dereferences the nil user; the embedding evaluates to a panic
(`resp = none`) at that input instead of a GET_USERINFO_FAIL envelope. -/
theorem C10_userinfo_panics_on_lookup_error :
    OauthUserInfo "Bearer tok" (fun _ => .ok ⟨"c1", "u1", "all"⟩)
      (fun _ => (none, some "user not exist")) = ⟨none, true, true⟩ := by
  decide

end SastLink
